import Mathlib

/-!
Verification of `main.py` (cult.fit booking bot) against its specification.

The script is embedded shallowly:
* Python dictionaries deserialized from JSON become Lean structures whose
  fields are `Option`-valued, so that `dict.get(k)` (which yields `None` when
  the key is absent) is `Option` access and `dict.get(k, d)` is `Option.getD`.
* The HTTP layer is made explicit: each operation takes the outcome of its
  HTTP call (a status code and parsed body, or a raised
  `requests.exceptions.RequestException`) as an argument, and the main loop
  takes a trace of such outcomes, one per iteration.
* `get_available_classes` returns a Python value that is either the string
  `'AUTH_ERROR'`, `None`, or a list; this three-way vocabulary is the
  inductive `FetchResult`.
-/

/-- A class record as deserialized from the vendor JSON.  Every field the
script reads is optional, mirroring `dict.get`: a missing key reads as
`none`.  `availableSeats` is read with default 0 (`cls.get("availableSeats", 0)`). -/
structure ClassRecord where
  id : Option String
  state : Option String
  availableSeats : Option Int
  startTime : Option String
  workoutName : Option String
deriving Repr, DecidableEq

/-- The four-predicate test of the loop body of
`CultFitAPIClient.find_target_class` (main.py lines 105-112):
`is_bookable and has_seats and matches_time and matches_name`. -/
def matchesCriteria (cls : ClassRecord) (time_str workout_name : String) : Bool :=
  let is_bookable := decide (cls.state = some "AVAILABLE")
  let has_seats := decide (cls.availableSeats.getD 0 > 0)
  let matches_time := decide (cls.startTime = some time_str)
  let matches_name := decide (cls.workoutName = some workout_name)
  is_bookable && has_seats && matches_time && matches_name

/-- `CultFitAPIClient.find_target_class` (main.py lines 99-117): walks the
list in order and returns the first record passing all four checks, else
`None`. -/
def find_target_class : List ClassRecord → String → String → Option ClassRecord
  | [], _, _ => none
  | cls :: rest, time_str, workout_name =>
    if matchesCriteria cls time_str workout_name then some cls
    else find_target_class rest time_str workout_name

theorem matchesCriteria_iff (cls : ClassRecord) (t w : String) :
    matchesCriteria cls t w = true ↔
      (cls.state = some "AVAILABLE" ∧ 0 < cls.availableSeats.getD 0 ∧
        cls.startTime = some t ∧ cls.workoutName = some w) := by
  simp [matchesCriteria, and_assoc]

theorem find_target_class_eq_find? (L : List ClassRecord) (t w : String) :
    find_target_class L t w = L.find? (fun c => matchesCriteria c t w) := by
  induction L with
  | nil => rfl
  | cons c rest ih =>
    by_cases h : matchesCriteria c t w
    · simp [find_target_class, List.find?, h]
    · simp only [Bool.not_eq_true] at h
      simp [find_target_class, List.find?, h, ih]

/-- One time-slot group of the schedule JSON: `{ classes: [ <ClassRecord> ] }`. -/
structure TimeSlot where
  classes : List ClassRecord
deriving Repr, DecidableEq

/-- One per-date entry of the schedule JSON:
`{ id: <date>, classByTimeList: [ <TimeSlot> ] }`. -/
structure DaySchedule where
  id : Option String
  classByTimeList : List TimeSlot
deriving Repr, DecidableEq

/-- The parsed schedule response body: `{ classByDateList: [ <DaySchedule> ] }`. -/
structure ScheduleData where
  classByDateList : List DaySchedule
deriving Repr, DecidableEq

/-- The outcome of the HTTP GET inside `get_available_classes`: either a
response with a status code and parsed JSON body, or a raised
`requests.exceptions.RequestException` (timeout, connection error, ...). -/
inductive HttpOutcome where
  | response (statusCode : Nat) (body : ScheduleData)
  | requestException
deriving Repr, DecidableEq

/-- The value vocabulary of `get_available_classes`: the string
`'AUTH_ERROR'`, Python `None`, or a list of class records. -/
inductive FetchResult where
  | authError
  | noneResult
  | classes (l : List ClassRecord)
deriving Repr, DecidableEq

/-- The inner accumulation of `get_available_classes` (main.py lines 78-82):
`class_list = []` then `class_list.extend(time_slot.get("classes"))` over the
time slots in order. -/
def flattenTimeSlots : List TimeSlot → List ClassRecord
  | [] => []
  | ts :: rest => ts.classes ++ flattenTimeSlots rest

/-- The per-date search of `get_available_classes` (main.py lines 76-89):
scan `classByDateList` in order for the first entry whose `id` equals the
requested date; flatten its time slots if found, else signal `None`. -/
def findDateClasses : List DaySchedule → String → Option (List ClassRecord)
  | [], _ => none
  | day_schedule :: rest, date =>
    if day_schedule.id = some date then
      some (flattenTimeSlots day_schedule.classByTimeList)
    else findDateClasses rest date

/-- `CultFitAPIClient.get_available_classes` (main.py lines 43-97), as a
function of the HTTP call's outcome.  A non-200 status returns `'AUTH_ERROR'`
before the body is looked at; a 200 response is parsed and searched per date;
a raised `RequestException` is caught, logged, and the bare `return` yields
Python `None`. -/
def get_available_classes (outcome : HttpOutcome) (date : String) : FetchResult :=
  match outcome with
  | HttpOutcome.requestException => FetchResult.noneResult
  | HttpOutcome.response statusCode body =>
    if statusCode ≠ 200 then FetchResult.authError
    else
      match findDateClasses body.classByDateList date with
      | some class_list => FetchResult.classes class_list
      | none => FetchResult.noneResult

/-- `CultFitAPIClient.book_class` (main.py lines 119-137), as a function of
the HTTP POST's outcome: `some s` is a response with status code `s`, `none`
is a raised `requests.exceptions.RequestException` (caught and logged).
Returns `True` exactly on status 200; every other status and every caught
exception returns `False`. -/
def book_class (outcome : Option Nat) : Bool :=
  match outcome with
  | some statusCode => decide (statusCode = 200)
  | none => false

/-- The environment of one iteration of `main`'s `while True:` loop: the
outcome of the schedule GET and, should the iteration reach `book_class`,
the outcome of the booking POST. -/
structure IterInput where
  fetch : HttpOutcome
  book : Option Nat
deriving Repr, DecidableEq

/-- Which `break` of the loop in `main` fired. -/
inductive TermReason where
  | authFailure
  | noClasses
  | noTarget
  | bookingSuccess
deriving Repr, DecidableEq

/-- The effect of one iteration of the loop: `terminate r n` is a `break`
for reason `r` after `n` calls to `book_class` in this iteration;
`retry n` is a `time.sleep(180)` followed by `continue`/loop restart after
`n` calls to `book_class`. -/
inductive StepResult where
  | terminate (reason : TermReason) (attempts : Nat)
  | retry (attempts : Nat)
deriving Repr, DecidableEq

/-- Booking attempts made by one step. -/
def stepAttempts : StepResult → Nat
  | StepResult.terminate _ n => n
  | StepResult.retry n => n

/-- One iteration of the `while True:` loop of `main` (main.py lines
165-198), with its four cases:
Case 1: `available_classes == 'AUTH_ERROR'` → break.
Case 2: `available_classes is None and advance == 4` → sleep, continue.
Case 3: `not available_classes` (Python `None` with `advance != 4`, or an
empty list) → break.
Case 4: search with `find_target_class`; `if target_class and 'id' in
target_class` book it (break on success, sleep-and-retry on failure), `else`
break.  A record returned by `find_target_class` always has its `state` key
(it tested equal to `"AVAILABLE"`), so the matched dictionary is non-empty
and `if target_class` is the `some`/`none` distinction. -/
def mainLoopStep (advance : Int) (date_str preferred_time workout_name : String)
    (inp : IterInput) : StepResult :=
  match get_available_classes inp.fetch date_str with
  | FetchResult.authError => StepResult.terminate TermReason.authFailure 0
  | FetchResult.noneResult =>
    if advance = 4 then StepResult.retry 0
    else StepResult.terminate TermReason.noClasses 0
  | FetchResult.classes available_classes =>
    if available_classes = [] then StepResult.terminate TermReason.noClasses 0
    else
      match find_target_class available_classes preferred_time workout_name with
      | some target_class =>
        match target_class.id with
        | some _ =>
          if book_class inp.book then StepResult.terminate TermReason.bookingSuccess 1
          else StepResult.retry 1
        | none => StepResult.terminate TermReason.noTarget 0
      | none => StepResult.terminate TermReason.noTarget 0

/-- Result of running the loop against a finite trace of iteration inputs. -/
inductive RunResult where
  | finished (reason : TermReason)
  | outOfTrace
deriving Repr, DecidableEq

/-- The whole `while True:` loop of `main`, driven by a finite trace of
per-iteration environments; returns how the run ended (or `outOfTrace` when
the loop would poll on beyond the supplied trace) together with the total
number of `book_class` calls made. -/
def mainLoop (advance : Int) (date_str preferred_time workout_name : String) :
    List IterInput → RunResult × Nat
  | [] => (RunResult.outOfTrace, 0)
  | inp :: rest =>
    match mainLoopStep advance date_str preferred_time workout_name inp with
    | StepResult.terminate r n => (RunResult.finished r, n)
    | StepResult.retry n =>
      let tail := mainLoop advance date_str preferred_time workout_name rest
      (tail.1, n + tail.2)

/-- The recognized environment options read by `main` (main.py lines
146-152).  `none` models a variable absent from the environment
(`os.getenv` returns `None`). -/
structure Config where
  CULT_API_KEY : Option String
  CULT_AT_TOKEN : Option String
  CULT_ST_TOKEN : Option String
  CENTER_ID : Option String
  PREFERRED_TIME : Option String
  PREFERRED_WORKOUT_NAME : Option String
  DAYS_IN_ADVANCE : Option String
deriving Repr, DecidableEq

/-- Python truthiness of an `os.getenv` result: `None` and `""` are falsy. -/
def truthy : Option String → Bool
  | none => false
  | some s => decide (s ≠ "")

/-- Python `int` applied to a string, over its character list: the value of
a non-empty all-digit string, exception (`none`) otherwise.  (Python's `int`
also accepts signs and surrounding whitespace; the configuration claims only
need the absent/non-numeric-raises versus numeric-parses distinction.) -/
def pyIntDigits : List Char → Option Int
  | [] => none
  | cs =>
    if cs.all Char.isDigit then
      some (Int.ofNat (cs.foldl (fun n c => n * 10 + (c.toNat - '0'.toNat)) 0))
    else none

/-- `int(os.getenv("DAYS_IN_ADVANCE"))` (main.py line 152): `int(None)`
raises `TypeError` and `int` of a non-numeric string raises `ValueError`,
both uncaught; `none` models the raised exception. -/
def intOfEnv : Option String → Option Int
  | none => none
  | some s => pyIntDigits s.data

/-- How the startup portion of `main` (main.py lines 146-163) ends. -/
inductive StartupResult where
  | crashed
  | initFailed
  | ready (advance : Int) (center_id preferred_time workout_name : Option String)
deriving Repr, DecidableEq

/-- The startup portion of `main` (main.py lines 146-163): read the seven
environment options, convert `DAYS_IN_ADVANCE` with `int` (line 152, before
the `try`, so a conversion exception crashes the process), then construct
`CultFitAPIClient`, whose `__init__` raises `ValueError` when
`not all([api_key, at_token, st_token])` (main.py lines 28-30); `main`
catches that, logs, and returns (`initFailed`).  No other option is
validated: `ready` carries the possibly-absent remaining options into the
loop. -/
def mainStartup (cfg : Config) : StartupResult :=
  match intOfEnv cfg.DAYS_IN_ADVANCE with
  | none => StartupResult.crashed
  | some advance =>
    if truthy cfg.CULT_API_KEY && truthy cfg.CULT_AT_TOKEN && truthy cfg.CULT_ST_TOKEN then
      StartupResult.ready advance cfg.CENTER_ID cfg.PREFERRED_TIME cfg.PREFERRED_WORKOUT_NAME
    else StartupResult.initFailed

section Helpers

theorem mainLoopStep_of_authError (advance : Int) (d t w : String) (inp : IterInput)
    (h : get_available_classes inp.fetch d = FetchResult.authError) :
    mainLoopStep advance d t w inp = StepResult.terminate TermReason.authFailure 0 := by
  unfold mainLoopStep
  rw [h]

theorem mainLoopStep_of_noneResult (advance : Int) (d t w : String) (inp : IterInput)
    (h : get_available_classes inp.fetch d = FetchResult.noneResult) :
    mainLoopStep advance d t w inp =
      if advance = 4 then StepResult.retry 0
      else StepResult.terminate TermReason.noClasses 0 := by
  unfold mainLoopStep
  rw [h]

theorem mainLoopStep_of_classes (advance : Int) (d t w : String) (inp : IterInput)
    (cls : List ClassRecord)
    (h : get_available_classes inp.fetch d = FetchResult.classes cls) :
    mainLoopStep advance d t w inp =
      (if cls = [] then StepResult.terminate TermReason.noClasses 0
       else
        match find_target_class cls t w with
        | some target_class =>
          match target_class.id with
          | some _ =>
            if book_class inp.book then StepResult.terminate TermReason.bookingSuccess 1
            else StepResult.retry 1
          | none => StepResult.terminate TermReason.noTarget 0
        | none => StepResult.terminate TermReason.noTarget 0) := by
  unfold mainLoopStep
  rw [h]

theorem mainLoop_cons (advance : Int) (d t w : String) (inp : IterInput)
    (rest : List IterInput) :
    mainLoop advance d t w (inp :: rest) =
      match mainLoopStep advance d t w inp with
      | StepResult.terminate r n => (RunResult.finished r, n)
      | StepResult.retry n =>
        ((mainLoop advance d t w rest).1, n + (mainLoop advance d t w rest).2) := by
  rfl

end Helpers

section SampleData

/-- A record passing all four checks for time "19:00:00" and workout "Yoga". -/
def sampleMatch : ClassRecord :=
  { id := some "c123", state := some "AVAILABLE", availableSeats := some 5,
    startTime := some "19:00:00", workoutName := some "Yoga" }

/-- A second qualifying record, later in traversal order. -/
def sampleMatch2 : ClassRecord :=
  { id := some "c999", state := some "AVAILABLE", availableSeats := some 2,
    startTime := some "19:00:00", workoutName := some "Yoga" }

/-- A record failing only the seat check. -/
def sampleFull : ClassRecord :=
  { id := some "c124", state := some "AVAILABLE", availableSeats := some 0,
    startTime := some "19:00:00", workoutName := some "Yoga" }

/-- A qualifying record whose dictionary lacks the `id` key. -/
def sampleNoId : ClassRecord :=
  { id := none, state := some "AVAILABLE", availableSeats := some 3,
    startTime := some "19:00:00", workoutName := some "Yoga" }

/-- A record whose dictionary lacks the `availableSeats` key. -/
def sampleNoSeats : ClassRecord :=
  { id := some "c125", state := some "AVAILABLE", availableSeats := none,
    startTime := some "19:00:00", workoutName := some "Yoga" }

end SampleData

/-- C1: for every list `L` and criteria `(t, w)`, `find_target_class`
returns only a record of `L` satisfying all four predicates (state
`"AVAILABLE"`, positive seat count, requested start time, requested workout
name), and returns `None` exactly when no record of `L` satisfies all
four. -/
theorem find_target_class_sound_and_complete (L : List ClassRecord) (t w : String) :
    (∀ r, find_target_class L t w = some r →
      r ∈ L ∧ r.state = some "AVAILABLE" ∧ 0 < r.availableSeats.getD 0 ∧
        r.startTime = some t ∧ r.workoutName = some w) ∧
    (find_target_class L t w = none ↔
      ∀ r ∈ L, ¬(r.state = some "AVAILABLE" ∧ 0 < r.availableSeats.getD 0 ∧
        r.startTime = some t ∧ r.workoutName = some w)) := by
  rw [find_target_class_eq_find?]
  constructor
  · intro r hr
    have hmem := List.mem_of_find?_eq_some hr
    have hp := List.find?_some hr
    rw [matchesCriteria_iff] at hp
    exact ⟨hmem, hp⟩
  · rw [List.find?_eq_none]
    constructor
    · intro h r hrL
      have := h r hrL
      rw [← matchesCriteria_iff]
      simpa using this
    · intro h r hrL
      have := h r hrL
      rw [← matchesCriteria_iff] at this
      simpa using this

theorem find_target_class_sound_and_complete_witness :
    sampleMatch ∈ [sampleFull, sampleMatch] ∧
      sampleMatch.state = some "AVAILABLE" ∧
      0 < sampleMatch.availableSeats.getD 0 ∧
      sampleMatch.startTime = some "19:00:00" ∧
      sampleMatch.workoutName = some "Yoga" :=
  (find_target_class_sound_and_complete [sampleFull, sampleMatch] "19:00:00" "Yoga").1
    sampleMatch (by decide)

/-- C5: `book_class` returns `True` if and only if the booking POST's HTTP
status is exactly 200; every other status, and every raised network
exception (modelled by `none`), yields `False` — the exception is caught,
never propagated. -/
theorem book_class_true_iff_200 (outcome : Option Nat) :
    book_class outcome = true ↔ outcome = some 200 := by
  cases outcome with
  | none => simp [book_class]
  | some s => simp [book_class]

/-- C6: `find_target_class` returns the first qualifying record in input
traversal order: whenever every record before `r` fails the criteria and `r`
passes them, `r` is returned, regardless of what follows; determinism is
immediate since `find_target_class` is a function of the list. -/
theorem find_target_class_first_match (L1 L2 : List ClassRecord) (r : ClassRecord)
    (t w : String) (hr : matchesCriteria r t w = true)
    (hL1 : ∀ x ∈ L1, matchesCriteria x t w = false) :
    find_target_class (L1 ++ r :: L2) t w = some r := by
  induction L1 with
  | nil => simp [find_target_class, hr]
  | cons c rest ih =>
    have hc := hL1 c (by simp)
    simp only [List.cons_append, find_target_class, hc, Bool.false_eq_true, if_false]
    exact ih fun x hx => hL1 x (by simp [hx])

theorem find_target_class_first_match_witness :
    find_target_class ([sampleFull] ++ sampleMatch :: [sampleMatch2]) "19:00:00" "Yoga" =
      some sampleMatch :=
  find_target_class_first_match [sampleFull] [sampleMatch2] sampleMatch "19:00:00" "Yoga"
    (by decide) (by decide)

/-- C10: `find_target_class` is total over records with missing keys (it is
a total Lean function; no exception model is needed): a record lacking
`availableSeats` reads as 0 seats and fails the seat check, and a record
lacking `state`, `startTime`, or `workoutName` fails that field's check, so
any such record is skipped and the search continues on the rest of the
list. -/
theorem find_target_class_total_on_missing_keys (r : ClassRecord)
    (L : List ClassRecord) (t w : String) :
    (r.availableSeats = none →
      r.availableSeats.getD 0 = 0 ∧ matchesCriteria r t w = false) ∧
    (r.state = none → matchesCriteria r t w = false) ∧
    (r.startTime = none → matchesCriteria r t w = false) ∧
    (r.workoutName = none → matchesCriteria r t w = false) ∧
    (matchesCriteria r t w = false →
      find_target_class (r :: L) t w = find_target_class L t w) := by
  refine ⟨?_, ?_, ?_, ?_, ?_⟩
  · intro h
    simp [matchesCriteria, h]
  · intro h
    simp [matchesCriteria, h]
  · intro h
    simp [matchesCriteria, h]
  · intro h
    simp [matchesCriteria, h]
  · intro h
    simp [find_target_class, h]

theorem find_target_class_total_on_missing_keys_witness :
    sampleNoSeats.availableSeats.getD 0 = 0 ∧
      matchesCriteria sampleNoSeats "19:00:00" "Yoga" = false :=
  (find_target_class_total_on_missing_keys sampleNoSeats [] "19:00:00" "Yoga").1 rfl

section FetchHelpers

theorem flattenTimeSlots_eq_join (tsl : List TimeSlot) :
    flattenTimeSlots tsl = (tsl.map TimeSlot.classes).flatten := by
  induction tsl with
  | nil => rfl
  | cons ts rest ih => simp [flattenTimeSlots, ih]

theorem findDateClasses_of_first (ds1 ds2 : List DaySchedule) (e : DaySchedule)
    (date : String) (h1 : ∀ d ∈ ds1, d.id ≠ some date) (he : e.id = some date) :
    findDateClasses (ds1 ++ e :: ds2) date =
      some (flattenTimeSlots e.classByTimeList) := by
  induction ds1 with
  | nil => simp [findDateClasses, he]
  | cons d rest ih =>
    have hd := h1 d (by simp)
    simp only [List.cons_append, findDateClasses, hd, if_false]
    exact ih fun x hx => h1 x (by simp [hx])

theorem findDateClasses_of_no_match (ds : List DaySchedule) (date : String)
    (h : ∀ d ∈ ds, d.id ≠ some date) :
    findDateClasses ds date = none := by
  induction ds with
  | nil => rfl
  | cons d rest ih =>
    have hd := h d (by simp)
    simp only [findDateClasses, hd, if_false]
    exact ih fun x hx => h x (by simp [hx])

end FetchHelpers

/-- C4: for every HTTP response to the schedule fetch with status ≠ 200,
`get_available_classes` returns `'AUTH_ERROR'` whatever the body holds, the
loop iteration seeing it terminates for authentication failure with zero
booking attempts, and the whole run finishes there with zero booking
attempts overall. -/
theorem fetch_non_200_is_auth_error (statusCode : Nat) (body : ScheduleData)
    (date : String) (h : statusCode ≠ 200) :
    get_available_classes (HttpOutcome.response statusCode body) date =
      FetchResult.authError ∧
    ∀ (advance : Int) (t w : String) (book : Option Nat) (rest : List IterInput),
      mainLoopStep advance date t w ⟨HttpOutcome.response statusCode body, book⟩ =
        StepResult.terminate TermReason.authFailure 0 ∧
      mainLoop advance date t w (⟨HttpOutcome.response statusCode body, book⟩ :: rest) =
        (RunResult.finished TermReason.authFailure, 0) := by
  have h1 : get_available_classes (HttpOutcome.response statusCode body) date =
      FetchResult.authError := by
    simp [get_available_classes, h]
  refine ⟨h1, fun advance t w book rest => ?_⟩
  have h2 := mainLoopStep_of_authError advance date t w
    ⟨HttpOutcome.response statusCode body, book⟩ h1
  exact ⟨h2, by rw [mainLoop_cons, h2]⟩

theorem fetch_non_200_is_auth_error_witness :
    get_available_classes (HttpOutcome.response 403 ⟨[]⟩) "2024-06-01" =
      FetchResult.authError :=
  (fetch_non_200_is_auth_error 403 ⟨[]⟩ "2024-06-01" (by decide)).1

/-- C7: when the parsed schedule's date collection has a (first) entry whose
`id` equals the requested date string, a 200-status fetch returns the
concatenation of that entry's time-slot groups' class lists, group order
first, intra-group order preserved; when no entry's `id` equals the date
string exactly, it returns `None`. -/
theorem fetch_flattens_matching_date (body : ScheduleData) (date : String) :
    (∀ (ds1 ds2 : List DaySchedule) (e : DaySchedule),
      body.classByDateList = ds1 ++ e :: ds2 →
      (∀ d ∈ ds1, d.id ≠ some date) → e.id = some date →
      get_available_classes (HttpOutcome.response 200 body) date =
        FetchResult.classes ((e.classByTimeList.map TimeSlot.classes).flatten)) ∧
    ((∀ e ∈ body.classByDateList, e.id ≠ some date) →
      get_available_classes (HttpOutcome.response 200 body) date =
        FetchResult.noneResult) := by
  constructor
  · intro ds1 ds2 e hsplit h1 he
    have hfind := findDateClasses_of_first ds1 ds2 e date h1 he
    simp [get_available_classes, hsplit, hfind, flattenTimeSlots_eq_join]
  · intro h
    have hfind := findDateClasses_of_no_match body.classByDateList date h
    simp [get_available_classes, hfind]

/-- The schedule body used to exercise `fetch_flattens_matching_date`: one
earlier non-matching date entry, then the requested date with two time-slot
groups. -/
def sampleBody : ScheduleData :=
  ⟨[⟨some "2024-05-31", [⟨[sampleFull]⟩]⟩,
    ⟨some "2024-06-01", [⟨[sampleFull, sampleMatch]⟩, ⟨[sampleMatch2]⟩]⟩]⟩

theorem fetch_flattens_matching_date_witness :
    get_available_classes (HttpOutcome.response 200 sampleBody) "2024-06-01" =
      FetchResult.classes
        ((([⟨[sampleFull, sampleMatch]⟩, ⟨[sampleMatch2]⟩] :
            List TimeSlot).map TimeSlot.classes).flatten) :=
  (fetch_flattens_matching_date sampleBody "2024-06-01").1
    [⟨some "2024-05-31", [⟨[sampleFull]⟩]⟩]
    []
    ⟨some "2024-06-01", [⟨[sampleFull, sampleMatch]⟩, ⟨[sampleMatch2]⟩]⟩
    rfl (by decide) rfl

theorem mainLoopStep_terminate_inv (advance : Int) (d t w : String) (inp : IterInput)
    (r : TermReason) (n : Nat)
    (heq : mainLoopStep advance d t w inp = StepResult.terminate r n) :
    (r = TermReason.bookingSuccess → book_class inp.book = true ∧ n = 1) ∧
    (r ≠ TermReason.bookingSuccess → n = 0) := by
  cases hg : get_available_classes inp.fetch d with
  | authError =>
    rw [mainLoopStep_of_authError advance d t w inp hg] at heq
    cases heq
    simp
  | noneResult =>
    rw [mainLoopStep_of_noneResult advance d t w inp hg] at heq
    by_cases ha : advance = 4
    · rw [if_pos ha] at heq
      cases heq
    · rw [if_neg ha] at heq
      cases heq
      simp
  | classes cls =>
    rw [mainLoopStep_of_classes advance d t w inp cls hg] at heq
    by_cases hcls : cls = []
    · rw [if_pos hcls] at heq
      cases heq
      simp
    · rw [if_neg hcls] at heq
      cases hf : find_target_class cls t w with
      | none =>
        simp only [hf] at heq
        cases heq
        simp
      | some target_class =>
        simp only [hf] at heq
        cases hid : target_class.id with
        | none =>
          simp only [hid] at heq
          cases heq
          simp
        | some cid =>
          simp only [hid] at heq
          by_cases hb : book_class inp.book
          · rw [if_pos hb] at heq
            cases heq
            exact ⟨fun _ => ⟨hb, rfl⟩, fun hcon => absurd rfl hcon⟩
          · rw [if_neg hb] at heq
            cases heq

/-- C2: in every iteration of the loop at most one booking attempt is made;
an iteration that breaks does so for the first successful booking (exactly
one attempt, and `book_class` returned `True`), or with zero attempts for
authentication failure or a no-data/no-match outcome, and the whole run
finishes right there; a failed booking attempt never breaks the loop: the
iteration retries and the run's outcome is that of the remaining trace. -/
theorem loop_booking_invariant (advance : Int) (d t w : String) (inp : IterInput)
    (rest : List IterInput) :
    stepAttempts (mainLoopStep advance d t w inp) ≤ 1 ∧
    (∀ r n, mainLoopStep advance d t w inp = StepResult.terminate r n →
      mainLoop advance d t w (inp :: rest) = (RunResult.finished r, n) ∧
      (r = TermReason.bookingSuccess → book_class inp.book = true ∧ n = 1) ∧
      (r ≠ TermReason.bookingSuccess → n = 0)) ∧
    (∀ (cls : List ClassRecord) (target_class : ClassRecord),
      get_available_classes inp.fetch d = FetchResult.classes cls → cls ≠ [] →
      find_target_class cls t w = some target_class → target_class.id ≠ none →
      book_class inp.book = false →
      mainLoopStep advance d t w inp = StepResult.retry 1 ∧
      (mainLoop advance d t w (inp :: rest)).1 = (mainLoop advance d t w rest).1) := by
  refine ⟨?_, ?_, ?_⟩
  · cases hg : get_available_classes inp.fetch d with
    | authError =>
      rw [mainLoopStep_of_authError advance d t w inp hg]
      simp [stepAttempts]
    | noneResult =>
      rw [mainLoopStep_of_noneResult advance d t w inp hg]
      split <;> simp [stepAttempts]
    | classes cls =>
      rw [mainLoopStep_of_classes advance d t w inp cls hg]
      by_cases hcls : cls = []
      · rw [if_pos hcls]
        simp [stepAttempts]
      · rw [if_neg hcls]
        cases hf : find_target_class cls t w with
        | none => simp [stepAttempts]
        | some target_class =>
          cases hid : target_class.id with
          | none => simp [stepAttempts, hid]
          | some cid =>
            by_cases hb : book_class inp.book <;> simp [stepAttempts, hid, hb]
  · intro r n heq
    refine ⟨by rw [mainLoop_cons, heq], ?_, ?_⟩
    · exact (mainLoopStep_terminate_inv advance d t w inp r n heq).1
    · exact (mainLoopStep_terminate_inv advance d t w inp r n heq).2
  · intro cls target_class hg hcls hf hid hb
    have hstep : mainLoopStep advance d t w inp = StepResult.retry 1 := by
      rw [mainLoopStep_of_classes advance d t w inp cls hg, if_neg hcls]
      simp only [hf]
      cases hid2 : target_class.id with
      | none => exact absurd hid2 hid
      | some cid => simp [hb]
    exact ⟨hstep, by rw [mainLoop_cons, hstep]⟩

theorem loop_booking_invariant_witness :
    mainLoop 4 "2024-06-01" "19:00:00" "Yoga"
        [⟨HttpOutcome.response 403 ⟨[]⟩, none⟩] =
      (RunResult.finished TermReason.authFailure, 0) ∧
    (TermReason.authFailure = TermReason.bookingSuccess →
      book_class (IterInput.mk (HttpOutcome.response 403 ⟨[]⟩) none).book = true ∧
        0 = 1) ∧
    (TermReason.authFailure ≠ TermReason.bookingSuccess → 0 = 0) :=
  (loop_booking_invariant 4 "2024-06-01" "19:00:00" "Yoga"
      ⟨HttpOutcome.response 403 ⟨[]⟩, none⟩ []).2.1
    TermReason.authFailure 0 (by rfl)

/-- C3 counterexample: with the configured offset equal to 4, a network
failure swallowed by the client (a raised `RequestException`, returned as
Python `None`) makes the loop iteration sleep and retry — `StepResult.retry
0` — not log-and-terminate as the claim states. -/
theorem loop_retries_swallowed_network_failure :
    mainLoopStep 4 "2024-06-01" "19:00:00" "Yoga"
        ⟨HttpOutcome.requestException, none⟩ = StepResult.retry 0 := by
  rfl

/-- C3 (amended): a swallowed network failure yields the same Python `None`
as "date not open"; the loop then retries whenever the offset equals 4 —
whatever produced the `None` — and terminates without retry only when the
offset differs from 4 or when the fetch returned an empty class list. -/
theorem loop_absent_result_policy (advance : Int) (d t w : String) (inp : IterInput) :
    (inp.fetch = HttpOutcome.requestException →
      get_available_classes inp.fetch d = FetchResult.noneResult) ∧
    (get_available_classes inp.fetch d = FetchResult.noneResult →
      (advance = 4 → mainLoopStep advance d t w inp = StepResult.retry 0) ∧
      (advance ≠ 4 →
        mainLoopStep advance d t w inp =
          StepResult.terminate TermReason.noClasses 0)) ∧
    (get_available_classes inp.fetch d = FetchResult.classes [] →
      mainLoopStep advance d t w inp =
        StepResult.terminate TermReason.noClasses 0) := by
  refine ⟨?_, ?_, ?_⟩
  · intro hex
    rw [hex]
    rfl
  · intro hg
    constructor
    · intro ha
      rw [mainLoopStep_of_noneResult advance d t w inp hg, if_pos ha]
    · intro ha
      rw [mainLoopStep_of_noneResult advance d t w inp hg, if_neg ha]
  · intro hg
    rw [mainLoopStep_of_classes advance d t w inp [] hg]
    rfl

theorem loop_absent_result_policy_witness :
    mainLoopStep 7 "2024-06-01" "19:00:00" "Yoga"
        ⟨HttpOutcome.requestException, none⟩ =
      StepResult.terminate TermReason.noClasses 0 :=
  ((loop_absent_result_policy 7 "2024-06-01" "19:00:00" "Yoga"
      ⟨HttpOutcome.requestException, none⟩).2.1 (by rfl)).2 (by decide)

/-- The schedule body whose sole matching class lacks the `id` key. -/
def sampleBodyNoId : ScheduleData :=
  ⟨[⟨some "2024-06-01", [⟨[sampleNoId]⟩]⟩]⟩

/-- C9: when `find_target_class` returns a record whose dictionary lacks the
`id` key, the iteration makes no booking attempt and breaks through the
`else` branch (`"No target class found to book."`) with zero attempts — the
very step result produced when no record matched at all. -/
theorem missing_id_skips_booking (advance : Int) (d t w : String) (inp : IterInput)
    (cls : List ClassRecord) (target_class : ClassRecord)
    (hg : get_available_classes inp.fetch d = FetchResult.classes cls)
    (hcls : cls ≠ [])
    (hf : find_target_class cls t w = some target_class)
    (hid : target_class.id = none) :
    mainLoopStep advance d t w inp = StepResult.terminate TermReason.noTarget 0 ∧
    ∀ (inp2 : IterInput) (cls2 : List ClassRecord),
      get_available_classes inp2.fetch d = FetchResult.classes cls2 → cls2 ≠ [] →
      find_target_class cls2 t w = none →
      mainLoopStep advance d t w inp2 = mainLoopStep advance d t w inp := by
  have hstep : mainLoopStep advance d t w inp =
      StepResult.terminate TermReason.noTarget 0 := by
    rw [mainLoopStep_of_classes advance d t w inp cls hg, if_neg hcls]
    simp only [hf, hid]
  refine ⟨hstep, ?_⟩
  intro inp2 cls2 hg2 hcls2 hf2
  rw [hstep, mainLoopStep_of_classes advance d t w inp2 cls2 hg2, if_neg hcls2]
  simp only [hf2]

theorem missing_id_skips_booking_witness :
    mainLoopStep 4 "2024-06-01" "19:00:00" "Yoga"
        ⟨HttpOutcome.response 200 sampleBodyNoId, some 200⟩ =
      StepResult.terminate TermReason.noTarget 0 :=
  (missing_id_skips_booking 4 "2024-06-01" "19:00:00" "Yoga"
      ⟨HttpOutcome.response 200 sampleBodyNoId, some 200⟩
      [sampleNoId] sampleNoId (by rfl) (by decide) (by rfl) rfl).1

/-- A configuration with all three credentials and the offset present but no
`CENTER_ID`. -/
def cfgMissingCenter : Config :=
  { CULT_API_KEY := some "key", CULT_AT_TOKEN := some "at-token",
    CULT_ST_TOKEN := some "st-token", CENTER_ID := none,
    PREFERRED_TIME := some "19:00:00", PREFERRED_WORKOUT_NAME := some "Yoga",
    DAYS_IN_ADVANCE := some "4" }

/-- A configuration with every recognized option present and non-empty. -/
def cfgComplete : Config :=
  { CULT_API_KEY := some "key", CULT_AT_TOKEN := some "at-token",
    CULT_ST_TOKEN := some "st-token", CENTER_ID := some "center-1",
    PREFERRED_TIME := some "19:00:00", PREFERRED_WORKOUT_NAME := some "Yoga",
    DAYS_IN_ADVANCE := some "4" }

/-- C8 counterexample: a configuration lacking `CENTER_ID` passes startup —
`mainStartup` reaches `ready`, so the run proceeds to the fetch loop with an
absent center identifier instead of failing initialization. -/
theorem startup_accepts_missing_center_id :
    mainStartup cfgMissingCenter =
      StartupResult.ready 4 none (some "19:00:00") (some "Yoga") ∧
    mainStartup cfgMissingCenter ≠ StartupResult.initFailed ∧
    mainStartup cfgMissingCenter ≠ StartupResult.crashed := by
  refine ⟨by rfl, by decide, by decide⟩

/-- C8 (amended): only the api key and the two session tokens are validated
— a missing or empty value among those three is the handled fatal
initialization error; an absent or non-numeric `DAYS_IN_ADVANCE` crashes
with an uncaught conversion exception before any fetch; `CENTER_ID`,
`PREFERRED_TIME`, and `PREFERRED_WORKOUT_NAME` are never checked and the run
proceeds into the loop carrying them as read. -/
theorem startup_validates_only_credentials (cfg : Config) :
    (mainStartup cfg = StartupResult.crashed ↔
      intOfEnv cfg.DAYS_IN_ADVANCE = none) ∧
    (mainStartup cfg = StartupResult.initFailed ↔
      intOfEnv cfg.DAYS_IN_ADVANCE ≠ none ∧
        (truthy cfg.CULT_API_KEY && truthy cfg.CULT_AT_TOKEN &&
          truthy cfg.CULT_ST_TOKEN) = false) ∧
    (∀ (advance : Int) (center_id preferred_time workout_name : Option String),
      mainStartup cfg = StartupResult.ready advance center_id preferred_time workout_name →
      truthy cfg.CULT_API_KEY = true ∧ truthy cfg.CULT_AT_TOKEN = true ∧
        truthy cfg.CULT_ST_TOKEN = true ∧
        center_id = cfg.CENTER_ID ∧ preferred_time = cfg.PREFERRED_TIME ∧
        workout_name = cfg.PREFERRED_WORKOUT_NAME) := by
  cases hday : intOfEnv cfg.DAYS_IN_ADVANCE with
  | none =>
    have hm : mainStartup cfg = StartupResult.crashed := by
      unfold mainStartup
      rw [hday]
    refine ⟨by simp [hm, hday], by simp [hm, hday], ?_⟩
    intro advance center_id preferred_time workout_name h
    rw [hm] at h
    cases h
  | some adv =>
    by_cases hcred : (truthy cfg.CULT_API_KEY && truthy cfg.CULT_AT_TOKEN &&
        truthy cfg.CULT_ST_TOKEN) = true
    · have hm : mainStartup cfg =
          StartupResult.ready adv cfg.CENTER_ID cfg.PREFERRED_TIME
            cfg.PREFERRED_WORKOUT_NAME := by
        unfold mainStartup
        simp only [hday]
        rw [if_pos hcred]
      refine ⟨by simp [hm, hday], by simp [hm, hday, hcred], ?_⟩
      intro advance center_id preferred_time workout_name h
      rw [hm] at h
      cases h
      simp only [Bool.and_eq_true] at hcred
      exact ⟨hcred.1.1, hcred.1.2, hcred.2, rfl, rfl, rfl⟩
    · have hm : mainStartup cfg = StartupResult.initFailed := by
        unfold mainStartup
        simp only [hday]
        rw [if_neg hcred]
      simp only [Bool.not_eq_true] at hcred
      refine ⟨by simp [hm, hday], by simp [hm, hday, hcred], ?_⟩
      intro advance center_id preferred_time workout_name h
      rw [hm] at h
      cases h

theorem startup_validates_only_credentials_witness :
    truthy cfgComplete.CULT_API_KEY = true ∧
      truthy cfgComplete.CULT_AT_TOKEN = true ∧
      truthy cfgComplete.CULT_ST_TOKEN = true ∧
      (some "center-1" : Option String) = cfgComplete.CENTER_ID ∧
      (some "19:00:00" : Option String) = cfgComplete.PREFERRED_TIME ∧
      (some "Yoga" : Option String) = cfgComplete.PREFERRED_WORKOUT_NAME :=
  (startup_validates_only_credentials cfgComplete).2.2 4 (some "center-1")
    (some "19:00:00") (some "Yoga") (by rfl)
